import Mathlib

/-!
# Verification of the food-tracker nutrition aggregation core

Shallow embedding of the nutrition aggregation and goal-comparison logic of
the food-tracker MCP server (`src/services/database.ts` and `src/index.ts`).
JavaScript numbers are modelled as rationals (`ℚ`); nullable fields as
`Option ℚ`; JavaScript truthiness tests (`x || 0`, `if (x)`) are modelled
explicitly, since `0`, `null` and `undefined` are all falsy.
-/

namespace FoodTracker

/-- The `NutritionInfo` record of `src/types.ts`: five numeric fields. -/
structure NutritionInfo where
  calories : ℚ
  protein_g : ℚ
  carbs_g : ℚ
  fat_g : ℚ
  fiber_g : ℚ
deriving Repr, DecidableEq

/-- A `FoodLogEntry` row of `src/types.ts` / the `food_logs` table.
`calories` is `NOT NULL` in the schema; the other four nutrition fields are
nullable.  `logged_at` is the creation timestamp string. -/
structure FoodLogEntry where
  id : Nat
  logged_at : String
  date : String
  meal : Option String
  food_name : String
  fdc_id : Option Nat
  serving_size : ℚ
  serving_unit : String
  calories : ℚ
  protein_g : Option ℚ
  carbs_g : Option ℚ
  fat_g : Option ℚ
  fiber_g : Option ℚ
  notes : Option String
deriving Repr, DecidableEq

/-- JavaScript `x || 0` for a non-nullable number `x`: `0` is falsy, so a zero
value falls through to `0` (which is the same value). -/
def numOrZero (x : ℚ) : ℚ :=
  if x = 0 then 0 else x

/-- JavaScript `x || 0` for a nullable number `x`: `null`/`undefined` and `0`
are falsy and yield `0`. -/
def optOrZero : Option ℚ → ℚ
  | none => 0
  | some x => if x = 0 then 0 else x

/-- The all-zero `NutritionInfo`, the initial accumulator of
`calculateTotals` (`database.ts` line 162). -/
def zeroNutrition : NutritionInfo :=
  { calories := 0, protein_g := 0, carbs_g := 0, fat_g := 0, fiber_g := 0 }

/-- One step of the `entries.reduce` callback in `calculateTotals`
(`database.ts` lines 155–161). -/
def totalsStep (totals : NutritionInfo) (entry : FoodLogEntry) : NutritionInfo :=
  { calories := totals.calories + numOrZero entry.calories,
    protein_g := totals.protein_g + optOrZero entry.protein_g,
    carbs_g := totals.carbs_g + optOrZero entry.carbs_g,
    fat_g := totals.fat_g + optOrZero entry.fat_g,
    fiber_g := totals.fiber_g + optOrZero entry.fiber_g }

/-- `calculateTotals` of `src/services/database.ts` (lines 153–164):
a left fold of `totalsStep` starting from the all-zero record. -/
def calculateTotals (entries : List FoodLogEntry) : NutritionInfo :=
  entries.foldl totalsStep zeroNutrition

/-- Pointwise sum of two `NutritionInfo` records (proof-side helper). -/
def nAdd (a b : NutritionInfo) : NutritionInfo :=
  { calories := a.calories + b.calories,
    protein_g := a.protein_g + b.protein_g,
    carbs_g := a.carbs_g + b.carbs_g,
    fat_g := a.fat_g + b.fat_g,
    fiber_g := a.fiber_g + b.fiber_g }

/-- Proof-side specification: the field-wise sums over an entry list, with an
absent (null) field contributing zero. -/
def sumNutrition (entries : List FoodLogEntry) : NutritionInfo :=
  { calories := (entries.map (fun e => e.calories)).sum,
    protein_g := (entries.map (fun e => e.protein_g.getD 0)).sum,
    carbs_g := (entries.map (fun e => e.carbs_g.getD 0)).sum,
    fat_g := (entries.map (fun e => e.fat_g.getD 0)).sum,
    fiber_g := (entries.map (fun e => e.fiber_g.getD 0)).sum }

/-- A concrete log entry used to instantiate the general theorems. -/
def sampleEntry (i : Nat) (d : String) (cal : ℚ) (prot : Option ℚ) : FoodLogEntry :=
  { id := i, logged_at := "", date := d, meal := none, food_name := "food",
    fdc_id := none, serving_size := 1, serving_unit := "g", calories := cal,
    protein_g := prot, carbs_g := none, fat_g := none, fiber_g := none,
    notes := none }

/-! ## Goals storage (`goals` table of `database.ts`) -/
/-- A row of the `goals` table (`database.ts` lines 24–31): `id` is the
primary key; the four target fields are nullable.  The `updated_at` timestamp
column is outside the model (it carries no nutrition semantics). -/
structure GoalsRow where
  id : Nat
  daily_calories : Option ℚ
  protein_g : Option ℚ
  carbs_g : Option ℚ
  fat_g : Option ℚ
deriving Repr, DecidableEq

/-- The `goals` table: a list of rows. -/
abbrev GoalsTable := List GoalsRow

/-- `getGoals` (`database.ts` lines 67–70): `SELECT * FROM goals WHERE id = 1`
returns the first row with `id = 1`, or `null` when there is none. -/
def getGoals (t : GoalsTable) : Option GoalsRow :=
  t.find? (fun r => r.id = 1)

/-- The default goals row inserted by `initializeSchema`
(`database.ts` line 60). -/
def defaultGoalsRow : GoalsRow :=
  { id := 1, daily_calories := some 2000, protein_g := some 150,
    carbs_g := some 250, fat_g := some 65 }

/-- The goals-seeding step of `initializeSchema` (`database.ts` lines 54–63):
if `COUNT(*)` over `goals` is zero, insert the default row with `id = 1`. -/
def initializeSchema (t : GoalsTable) : GoalsTable :=
  if t.length = 0 then t ++ [defaultGoalsRow] else t

/-- A `Partial<Goals>` argument (`updateGoals` input, also the parsed
`set_goals` tool input): each field either supplied (`some`) or absent. -/
structure GoalsPatch where
  daily_calories : Option ℚ
  protein_g : Option ℚ
  carbs_g : Option ℚ
  fat_g : Option ℚ
deriving Repr, DecidableEq

/-- JavaScript `a ?? b`: falls through only on `null`/`undefined`
(a supplied `0` is kept). -/
def nullishCoalesce (a b : Option ℚ) : Option ℚ :=
  match a with
  | some v => some v
  | none => b

/-- `updateGoals` (`database.ts` lines 72–99): read the current row, combine
it with the patch field-by-field using `??`, then
`UPDATE goals SET ... WHERE id = 1` (which rewrites every row whose `id` is
`1` and leaves other rows untouched). -/
def updateGoals (t : GoalsTable) (p : GoalsPatch) : GoalsTable :=
  let current := getGoals t
  let newCal := nullishCoalesce p.daily_calories (current.bind (fun r => r.daily_calories))
  let newProt := nullishCoalesce p.protein_g (current.bind (fun r => r.protein_g))
  let newCarbs := nullishCoalesce p.carbs_g (current.bind (fun r => r.carbs_g))
  let newFat := nullishCoalesce p.fat_g (current.bind (fun r => r.fat_g))
  t.map (fun r =>
    if r.id = 1 then
      { r with daily_calories := newCal, protein_g := newProt,
               carbs_g := newCarbs, fat_g := newFat }
    else r)

/-! ## The `set_goals` tool handler (`index.ts` lines 331–364) -/
/-- JavaScript `!x` for an optional number: `undefined` and `0` are falsy. -/
def optFalsy : Option ℚ → Bool
  | none => true
  | some v => v = 0

/-- The guard of the `set_goals` handler (`index.ts` line 334): every field
absent or zero. -/
def setGoalsAllFalsy (p : GoalsPatch) : Bool :=
  optFalsy p.daily_calories && optFalsy p.protein_g &&
    optFalsy p.carbs_g && optFalsy p.fat_g

/-- Result of the `set_goals` tool: either the current goals reported back
(no update performed) or the updated goals after `updateGoals`. -/
inductive SetGoalsOutcome where
  | current (g : Option GoalsRow)
  | updated (g : Option GoalsRow)
deriving Repr, DecidableEq

/-- The `set_goals` handler (`index.ts` lines 331–364): when every supplied
field is falsy it reports the current goals without updating; otherwise it
calls `updateGoals` and reports the stored result. -/
def set_goals (t : GoalsTable) (input : GoalsPatch) : GoalsTable × SetGoalsOutcome :=
  if setGoalsAllFalsy input then
    (t, SetGoalsOutcome.current (getGoals t))
  else
    (updateGoals t input, SetGoalsOutcome.updated (getGoals (updateGoals t input)))

/-! ## Goal delta in the `log_food` handler (`index.ts` lines 266–269) -/
/-- The remaining-vs-goal delta computed by `log_food`: the guard is the
JavaScript truthiness test `if (goals?.daily_calories)`, so a missing goals
row, a `null` calorie goal, and a zero calorie goal all skip the delta.
When the guard passes, `remaining = goals.daily_calories - totals.calories`.
The code computes this delta only for the calorie field. -/
def logFoodCalorieDelta (totals : NutritionInfo) (goals : Option GoalsRow) : Option ℚ :=
  match goals with
  | none => none
  | some g =>
      match g.daily_calories with
      | none => none
      | some c => if c = 0 then none else some (c - totals.calories)

/-- How `log_food` presents the delta (`index.ts` line 268):
`remaining > 0 ? remaining + " remaining" : abs(remaining) + " over goal"`. -/
inductive DeltaDisplay where
  | remaining (q : ℚ)
  | overGoal (q : ℚ)
deriving Repr, DecidableEq

/-- The sign-dependent rendering of the delta. -/
def deltaDisplay (r : ℚ) : DeltaDisplay :=
  if r > 0 then DeltaDisplay.remaining r else DeltaDisplay.overGoal |r|

/-! ## Percentage of goal (`index.ts` lines 316–318 and 441–444) -/
/-- JavaScript `Math.round`: round half away from negative infinity,
`Math.round(x) = floor(x + 1/2)`. -/
def jsRound (q : ℚ) : ℤ := ⌊q + 1/2⌋

/-- The percentage-of-goal computation shared by `get_daily_log` and
`get_summary`: guarded by the truthiness of the calorie goal
(`if (goals?.daily_calories)`), then `Math.round(actual / goal * 100)`. -/
def goalPercent (actual : ℚ) (goal : Option ℚ) : Option ℤ :=
  match goal with
  | none => none
  | some g => if g = 0 then none else some (jsRound (actual / g * 100))

/-! ## The range summarizer (`get_summary`, `index.ts` lines 410–455)

The handler groups the fetched entries by their `date` string into a plain
JavaScript object; object keys that are not array indices are enumerated in
insertion order, i.e. in order of first occurrence in the input. -/
/-- One step of key collection: a date becomes a new key (appended at the
end) exactly when it has not been seen before. -/
def insertDateKey (ks : List String) (d : String) : List String :=
  if d ∈ ks then ks else ks ++ [d]

/-- The keys of the `byDate` object (`index.ts` lines 411–415), in first
occurrence order. -/
def dateKeys (es : List FoodLogEntry) : List String :=
  es.foldl (fun ks e => insertDateKey ks e.date) []

/-- The `byDate[d]` bucket: entries with date `d` in input order. -/
def entriesOn (es : List FoodLogEntry) (d : String) : List FoodLogEntry :=
  es.filter (fun e => e.date = d)

/-- The per-date record `{date, ...calculateTotals(dayEntries)}`
(`index.ts` lines 417–420). -/
structure DailyTotals where
  date : String
  calories : ℚ
  protein_g : ℚ
  carbs_g : ℚ
  fat_g : ℚ
  fiber_g : ℚ
deriving Repr, DecidableEq

/-- The `dailyTotals` array of `get_summary`: one record per date key, in
key order. -/
def dailyTotalsOf (es : List FoodLogEntry) : List DailyTotals :=
  (dateKeys es).map (fun d =>
    { date := d,
      calories := (calculateTotals (entriesOn es d)).calories,
      protein_g := (calculateTotals (entriesOn es d)).protein_g,
      carbs_g := (calculateTotals (entriesOn es d)).carbs_g,
      fat_g := (calculateTotals (entriesOn es d)).fat_g,
      fiber_g := (calculateTotals (entriesOn es d)).fiber_g })

/-- `numDays` (`index.ts` line 422): the number of date buckets. -/
def summaryNumDays (es : List FoodLogEntry) : ℕ := (dailyTotalsOf es).length

/-- `avgCalories` (`index.ts` lines 423–425). -/
def summaryAvgCalories (es : List FoodLogEntry) : ℤ :=
  jsRound (((dailyTotalsOf es).map (fun d => d.calories)).sum / (summaryNumDays es : ℚ))

/-- `avgProtein` (`index.ts` lines 426–428). -/
def summaryAvgProtein (es : List FoodLogEntry) : ℚ :=
  ((jsRound ((((dailyTotalsOf es).map (fun d => d.protein_g)).sum / (summaryNumDays es : ℚ)) * 10) : ℤ) : ℚ) / 10

/-- `avgCarbs` (`index.ts` lines 429–431). -/
def summaryAvgCarbs (es : List FoodLogEntry) : ℚ :=
  ((jsRound ((((dailyTotalsOf es).map (fun d => d.carbs_g)).sum / (summaryNumDays es : ℚ)) * 10) : ℤ) : ℚ) / 10

/-- `avgFat` (`index.ts` lines 432–434). -/
def summaryAvgFat (es : List FoodLogEntry) : ℚ :=
  ((jsRound ((((dailyTotalsOf es).map (fun d => d.fat_g)).sum / (summaryNumDays es : ℚ)) * 10) : ℤ) : ℚ) / 10

/-! ## Rounding at the presentation boundary -/
/-- The values interpolated verbatim into the "Daily Totals" section of the
`get_daily_log` response (`index.ts` lines 314–326): the accumulated totals
themselves, with no rounding applied. -/
def dailyLogDisplayedTotals (es : List FoodLogEntry) : NutritionInfo :=
  calculateTotals es

/-! ## Lemmas and claim theorems -/

@[simp] lemma numOrZero_eq (x : ℚ) : numOrZero x = x := by
  unfold numOrZero; split <;> simp_all

@[simp] lemma optOrZero_eq (x : Option ℚ) : optOrZero x = x.getD 0 := by
  cases x with
  | none => rfl
  | some v =>
      unfold optOrZero
      split <;> simp_all

lemma totalsStep_eq_nAdd (t : NutritionInfo) (e : FoodLogEntry) :
    totalsStep t e = nAdd t (sumNutrition [e]) := by
  simp [totalsStep, nAdd, sumNutrition]

lemma nAdd_assoc (a b c : NutritionInfo) :
    nAdd (nAdd a b) c = nAdd a (nAdd b c) := by
  simp [nAdd, add_assoc]

lemma nAdd_zero_left (a : NutritionInfo) : nAdd zeroNutrition a = a := by
  simp [nAdd, zeroNutrition]

lemma sumNutrition_cons (e : FoodLogEntry) (es : List FoodLogEntry) :
    sumNutrition (e :: es) = nAdd (sumNutrition [e]) (sumNutrition es) := by
  simp [sumNutrition, nAdd]

lemma foldl_totalsStep (es : List FoodLogEntry) :
    ∀ acc : NutritionInfo, es.foldl totalsStep acc = nAdd acc (sumNutrition es) := by
  induction es with
  | nil => intro acc; simp [nAdd, sumNutrition]
  | cons e es ih =>
      intro acc
      rw [List.foldl_cons, ih]
      simp [totalsStep, nAdd, sumNutrition, add_assoc]

/-- `calculateTotals` computes exactly the field-wise sums. -/
lemma calculateTotals_eq_sum (es : List FoodLogEntry) :
    calculateTotals es = sumNutrition es := by
  unfold calculateTotals
  rw [foldl_totalsStep, nAdd_zero_left]

/-- **C1.** For every finite sequence of log entries, `calculateTotals`
returns the record whose every field is the sum of that field over the
entries, with an absent (`null`) field contributing zero; it is a total
function (never raises), and the empty sequence yields the all-zero record. -/
theorem calculateTotals_sums (es : List FoodLogEntry) :
    (calculateTotals es).calories = (es.map (fun e => e.calories)).sum ∧
    (calculateTotals es).protein_g = (es.map (fun e => e.protein_g.getD 0)).sum ∧
    (calculateTotals es).carbs_g = (es.map (fun e => e.carbs_g.getD 0)).sum ∧
    (calculateTotals es).fat_g = (es.map (fun e => e.fat_g.getD 0)).sum ∧
    (calculateTotals es).fiber_g = (es.map (fun e => e.fiber_g.getD 0)).sum ∧
    calculateTotals ([] : List FoodLogEntry) = zeroNutrition := by
  refine ⟨?_, ?_, ?_, ?_, ?_, rfl⟩ <;>
    rw [calculateTotals_eq_sum] <;> rfl

/-- **C5.** `calculateTotals` is invariant under any permutation of the
input sequence. -/
theorem calculateTotals_perm (es es' : List FoodLogEntry) (h : es.Perm es') :
    calculateTotals es = calculateTotals es' := by
  rw [calculateTotals_eq_sum, calculateTotals_eq_sum]
  unfold sumNutrition
  congr 1
  · exact (h.map (fun e => e.calories)).sum_eq
  · exact (h.map (fun e => e.protein_g.getD 0)).sum_eq
  · exact (h.map (fun e => e.carbs_g.getD 0)).sum_eq
  · exact (h.map (fun e => e.fat_g.getD 0)).sum_eq
  · exact (h.map (fun e => e.fiber_g.getD 0)).sum_eq

/-- Witness for C5 at a concrete pair of two-entry lists. -/
theorem calculateTotals_perm_witness :
    calculateTotals
        [sampleEntry 1 "2025-01-15" 150 (some 5),
         sampleEntry 2 "2025-01-15" 400 (some 40)] =
      calculateTotals
        [sampleEntry 2 "2025-01-15" 400 (some 40),
         sampleEntry 1 "2025-01-15" 150 (some 5)] :=
  calculateTotals_perm _ _
    (List.Perm.swap (sampleEntry 2 "2025-01-15" 400 (some 40))
      (sampleEntry 1 "2025-01-15" 150 (some 5)) [])

/-- **C8.** `updateGoals` overwrites only the fields supplied in the patch;
every field not supplied keeps its prior value, and exactly one `Goals`
record (the `id = 1` row) exists before and after the update. -/
theorem updateGoals_frame (t : GoalsTable) (r : GoalsRow) (p : GoalsPatch)
    (ht : t = [r]) (hid : r.id = 1) :
    ∃ r' : GoalsRow,
      updateGoals t p = [r'] ∧ r'.id = 1 ∧
      (∀ v, p.daily_calories = some v → r'.daily_calories = some v) ∧
      (p.daily_calories = none → r'.daily_calories = r.daily_calories) ∧
      (∀ v, p.protein_g = some v → r'.protein_g = some v) ∧
      (p.protein_g = none → r'.protein_g = r.protein_g) ∧
      (∀ v, p.carbs_g = some v → r'.carbs_g = some v) ∧
      (p.carbs_g = none → r'.carbs_g = r.carbs_g) ∧
      (∀ v, p.fat_g = some v → r'.fat_g = some v) ∧
      (p.fat_g = none → r'.fat_g = r.fat_g) := by
  subst ht
  refine ⟨{ r with
      daily_calories := nullishCoalesce p.daily_calories r.daily_calories,
      protein_g := nullishCoalesce p.protein_g r.protein_g,
      carbs_g := nullishCoalesce p.carbs_g r.carbs_g,
      fat_g := nullishCoalesce p.fat_g r.fat_g }, ?_, hid, ?_, ?_, ?_, ?_, ?_, ?_, ?_, ?_⟩
  · simp [updateGoals, getGoals, List.find?, hid]
  all_goals intro h
  all_goals try intro hv
  all_goals simp_all [nullishCoalesce]

/-- Witness for C8: updating only the calorie goal on the default row. -/
theorem updateGoals_frame_witness :
    ∃ r' : GoalsRow,
      updateGoals [defaultGoalsRow]
          { daily_calories := some 1800, protein_g := none,
            carbs_g := none, fat_g := none } = [r'] ∧ r'.id = 1 ∧
      (∀ v, (some (1800 : ℚ)) = some v → r'.daily_calories = some v) ∧
      ((some (1800 : ℚ)) = (none : Option ℚ) → r'.daily_calories = defaultGoalsRow.daily_calories) ∧
      (∀ v, (none : Option ℚ) = some v → r'.protein_g = some v) ∧
      ((none : Option ℚ) = none → r'.protein_g = defaultGoalsRow.protein_g) ∧
      (∀ v, (none : Option ℚ) = some v → r'.carbs_g = some v) ∧
      ((none : Option ℚ) = none → r'.carbs_g = defaultGoalsRow.carbs_g) ∧
      (∀ v, (none : Option ℚ) = some v → r'.fat_g = some v) ∧
      ((none : Option ℚ) = none → r'.fat_g = defaultGoalsRow.fat_g) :=
  updateGoals_frame [defaultGoalsRow] defaultGoalsRow
    { daily_calories := some 1800, protein_g := none,
      carbs_g := none, fat_g := none } rfl rfl

lemma getGoals_map (t : GoalsTable) (f : GoalsRow → GoalsRow)
    (hf : ∀ r, (f r).id = r.id) :
    getGoals (t.map f) = (getGoals t).map f := by
  unfold getGoals
  rw [List.find?_map]
  have hpred : ((fun r : GoalsRow => decide (r.id = 1)) ∘ f) =
      (fun r : GoalsRow => decide (r.id = 1)) := by
    funext r
    simp [Function.comp, hf]
  rw [hpred]

lemma getGoals_updateGoals (t : GoalsTable) (p : GoalsPatch) :
    (getGoals (updateGoals t p)).isSome = (getGoals t).isSome := by
  unfold updateGoals
  rw [getGoals_map]
  · cases getGoals t <;> rfl
  · intro r
    by_cases h : r.id = 1 <;> simp [h]

/-- **C9.** A fresh store is seeded with the default goals record (id 1,
calories 2000, protein 150, carbs 250, fat 65), so `getGoals` returns a row
whose every goal field has a value; the invariant that a row with `id = 1`
exists is preserved by `updateGoals` (the only operation that writes the
`goals` table) and by re-running `initializeSchema`. -/
theorem goals_seeded_invariant :
    getGoals (initializeSchema []) = some defaultGoalsRow ∧
    defaultGoalsRow.id = 1 ∧
    defaultGoalsRow.daily_calories = some 2000 ∧
    defaultGoalsRow.protein_g = some 150 ∧
    defaultGoalsRow.carbs_g = some 250 ∧
    defaultGoalsRow.fat_g = some 65 ∧
    (∀ (t : GoalsTable) (p : GoalsPatch),
      (getGoals t).isSome → (getGoals (updateGoals t p)).isSome) ∧
    (∀ t : GoalsTable,
      (getGoals t).isSome → (getGoals (initializeSchema t)).isSome) := by
  refine ⟨?_, rfl, rfl, rfl, rfl, rfl, ?_, ?_⟩
  · simp [initializeSchema, getGoals, defaultGoalsRow, List.find?]
  · intro t p h
    rw [getGoals_updateGoals]
    exact h
  · intro t h
    unfold initializeSchema
    split
    · rename_i hlen
      rw [List.length_eq_zero] at hlen
      subst hlen
      simp [getGoals] at h
    · exact h

/-- Witness for C9: the invariant survives an `updateGoals` call on the
freshly seeded store. -/
theorem goals_seeded_invariant_witness :
    (getGoals (updateGoals (initializeSchema [])
        { daily_calories := none, protein_g := none,
          carbs_g := none, fat_g := none })).isSome :=
  goals_seeded_invariant.2.2.2.2.2.2.1 (initializeSchema [])
    { daily_calories := none, protein_g := none, carbs_g := none, fat_g := none }
    (by rw [goals_seeded_invariant.1]; rfl)

/-- **C10.** If every field supplied to `set_goals` is zero or absent, the
handler performs no update — the table is unchanged and the current goals
are reported; consequently the stored table can only change (in particular,
a goal field can only be set to zero) when some supplied field is nonzero. -/
theorem set_goals_zero_frame (t : GoalsTable) (input : GoalsPatch) :
    (setGoalsAllFalsy input = true →
      set_goals t input = (t, SetGoalsOutcome.current (getGoals t))) ∧
    ((set_goals t input).1 ≠ t →
      (∃ v, input.daily_calories = some v ∧ v ≠ 0) ∨
      (∃ v, input.protein_g = some v ∧ v ≠ 0) ∨
      (∃ v, input.carbs_g = some v ∧ v ≠ 0) ∨
      (∃ v, input.fat_g = some v ∧ v ≠ 0)) := by
  constructor
  · intro h
    simp [set_goals, h]
  · intro hchange
    by_contra hnone
    push_neg at hnone
    obtain ⟨h1, h2, h3, h4⟩ := hnone
    have hfalsy : setGoalsAllFalsy input = true := by
      unfold setGoalsAllFalsy optFalsy
      cases hc : input.daily_calories <;> cases hp : input.protein_g <;>
        cases hcb : input.carbs_g <;> cases hf : input.fat_g <;>
        simp_all
    apply hchange
    simp [set_goals, hfalsy]

/-- Witness for C10: an all-zero/absent `set_goals` call on the seeded store
leaves the table unchanged and reports the current goals. -/
theorem set_goals_zero_frame_witness :
    set_goals [defaultGoalsRow]
        { daily_calories := some 0, protein_g := none,
          carbs_g := none, fat_g := none } =
      ([defaultGoalsRow], SetGoalsOutcome.current (getGoals [defaultGoalsRow])) :=
  (set_goals_zero_frame [defaultGoalsRow]
      { daily_calories := some 0, protein_g := none,
        carbs_g := none, fat_g := none }).1
    (by simp [setGoalsAllFalsy, optFalsy])

/-- **C3 counterexample.** A goals row whose calorie goal is *set to zero*:
the goal field is set, yet no delta is produced, refuting "a delta is
produced iff the goal field is set". -/
theorem logFoodCalorieDelta_zero_goal_counterexample :
    (({ id := 1, daily_calories := some 0, protein_g := none, carbs_g := none,
        fat_g := none } : GoalsRow)).daily_calories.isSome = true ∧
    logFoodCalorieDelta
        { calories := 100, protein_g := 0, carbs_g := 0, fat_g := 0, fiber_g := 0 }
        (some { id := 1, daily_calories := some 0, protein_g := none,
                carbs_g := none, fat_g := none }) = none := by
  constructor
  · rfl
  · simp [logFoodCalorieDelta]

/-- **C3 amended.** A calorie delta is produced iff a goals row is present
and its calorie goal is set to a *nonzero* value; the delta then equals
goal minus totals, a positive delta renders as "remaining" (under goal) and
a non-positive delta renders as "over goal" with its absolute value (at or
over goal). -/
theorem logFoodCalorieDelta_spec (t : NutritionInfo) (g : Option GoalsRow) :
    (∀ r : ℚ, logFoodCalorieDelta t g = some r ↔
      ∃ gr c, g = some gr ∧ gr.daily_calories = some c ∧ c ≠ 0 ∧
        r = c - t.calories) ∧
    (∀ r : ℚ, 0 < r → deltaDisplay r = DeltaDisplay.remaining r) ∧
    (∀ r : ℚ, r ≤ 0 → deltaDisplay r = DeltaDisplay.overGoal (-r)) := by
  refine ⟨?_, ?_, ?_⟩
  · intro r
    constructor
    · intro h
      cases g with
      | none => simp [logFoodCalorieDelta] at h
      | some gr =>
          cases hc : gr.daily_calories with
          | none => simp [logFoodCalorieDelta, hc] at h
          | some c =>
              simp only [logFoodCalorieDelta, hc] at h
              by_cases hz : c = 0
              · simp [hz] at h
              · simp only [if_neg hz, Option.some.injEq] at h
                exact ⟨gr, c, rfl, hc, hz, h.symm⟩
    · rintro ⟨gr, c, rfl, hc, hz, rfl⟩
      simp [logFoodCalorieDelta, hc, hz]
  · intro r hr
    simp [deltaDisplay, hr]
  · intro r hr
    rw [deltaDisplay, if_neg (by linarith), abs_of_nonpos hr]

/-- Witness for C3 (amended), at the spec's scenario: totals 1550 against a
2000-calorie goal yields delta 450, rendered as remaining. -/
theorem logFoodCalorieDelta_spec_witness :
    logFoodCalorieDelta
        { calories := 1550, protein_g := 0, carbs_g := 0, fat_g := 0, fiber_g := 0 }
        (some { id := 1, daily_calories := some 2000, protein_g := none,
                carbs_g := none, fat_g := none }) = some 450 ∧
    deltaDisplay 450 = DeltaDisplay.remaining 450 :=
  ⟨((logFoodCalorieDelta_spec
      { calories := 1550, protein_g := 0, carbs_g := 0, fat_g := 0, fiber_g := 0 }
      (some { id := 1, daily_calories := some 2000, protein_g := none,
              carbs_g := none, fat_g := none })).1 450).mpr
    ⟨_, 2000, rfl, rfl, by norm_num, by norm_num⟩,
   (logFoodCalorieDelta_spec
      { calories := 1550, protein_g := 0, carbs_g := 0, fat_g := 0, fiber_g := 0 }
      (some { id := 1, daily_calories := some 2000, protein_g := none,
              carbs_g := none, fat_g := none })).2.1 450 (by norm_num)⟩

/-- **C4.** The percentage equals `round(actual / goal * 100)` whenever the
goal is a positive number; no percentage is produced exactly when the goal
is absent or zero; and any produced percentage was computed with a nonzero
divisor, so division by zero never occurs. -/
theorem goalPercent_spec (actual : ℚ) (goal : Option ℚ) :
    (∀ g : ℚ, goal = some g → 0 < g →
      goalPercent actual goal = some (jsRound (actual / g * 100))) ∧
    (goalPercent actual goal = none ↔ goal = none ∨ goal = some 0) ∧
    (∀ p : ℤ, goalPercent actual goal = some p →
      ∃ g : ℚ, goal = some g ∧ g ≠ 0 ∧ p = jsRound (actual / g * 100)) := by
  refine ⟨?_, ?_, ?_⟩
  · rintro g rfl hg
    simp [goalPercent, ne_of_gt hg]
  · cases goal with
    | none => simp [goalPercent]
    | some g =>
        by_cases hz : g = 0 <;> simp [goalPercent, hz]
  · intro p hp
    cases goal with
    | none => simp [goalPercent] at hp
    | some g =>
        by_cases hz : g = 0
        · simp [goalPercent, hz] at hp
        · simp only [goalPercent, if_neg hz, Option.some.injEq] at hp
          exact ⟨g, rfl, hz, hp.symm⟩

/-- Witness for C4: 1550 calories against a 2000-calorie goal gives 78%. -/
theorem goalPercent_spec_witness :
    goalPercent 1550 (some 2000) = some (jsRound (1550 / 2000 * 100)) ∧
    jsRound (1550 / 2000 * 100) = 78 :=
  ⟨(goalPercent_spec 1550 (some 2000)).1 2000 rfl (by norm_num),
   by norm_num [jsRound]⟩

lemma mem_foldl_insertDateKey (es : List FoodLogEntry) :
    ∀ (acc : List String) (d : String),
      (d ∈ es.foldl (fun ks e => insertDateKey ks e.date) acc ↔
        d ∈ acc ∨ d ∈ es.map (fun e => e.date)) := by
  induction es with
  | nil => simp
  | cons e es ih =>
      intro acc d
      rw [List.foldl_cons, ih]
      unfold insertDateKey
      by_cases h : e.date ∈ acc
      · rw [if_pos h]
        have hmem : d = e.date → d ∈ acc := fun hd => hd ▸ h
        simp only [List.map_cons, List.mem_cons]
        tauto
      · rw [if_neg h]
        simp only [List.mem_append, List.mem_singleton, List.map_cons,
          List.mem_cons]
        tauto

lemma nodup_foldl_insertDateKey (es : List FoodLogEntry) :
    ∀ acc : List String, acc.Nodup →
      (es.foldl (fun ks e => insertDateKey ks e.date) acc).Nodup := by
  induction es with
  | nil => intro acc hacc; simpa
  | cons e es ih =>
      intro acc hacc
      rw [List.foldl_cons]
      apply ih
      unfold insertDateKey
      by_cases h : e.date ∈ acc
      · rwa [if_pos h]
      · rw [if_neg h]
        simp [List.nodup_append, hacc, h]

lemma dateKeys_nodup (es : List FoodLogEntry) : (dateKeys es).Nodup :=
  nodup_foldl_insertDateKey es [] (by simp)

lemma mem_dateKeys (es : List FoodLogEntry) (d : String) :
    d ∈ dateKeys es ↔ d ∈ es.map (fun e => e.date) := by
  unfold dateKeys
  rw [mem_foldl_insertDateKey]
  simp

lemma dateKeys_perm_dedup (es : List FoodLogEntry) :
    (dateKeys es).Perm ((es.map (fun e => e.date)).dedup) := by
  apply List.perm_of_nodup_nodup_toFinset_eq (dateKeys_nodup es)
    (List.nodup_dedup _)
  ext d
  simp [List.mem_toFinset, List.mem_dedup, mem_dateKeys]

lemma summaryNumDays_eq (es : List FoodLogEntry) :
    summaryNumDays es = (es.map (fun e => e.date)).toFinset.card := by
  unfold summaryNumDays dailyTotalsOf
  rw [List.length_map, (dateKeys_perm_dedup es).length_eq, List.card_toFinset]

lemma summarySum_eq (es : List FoodLogEntry) (f : NutritionInfo → ℚ) :
    ((dateKeys es).map (fun d => f (calculateTotals (entriesOn es d)))).sum =
      ∑ d in (es.map (fun e => e.date)).toFinset,
        f (calculateTotals (entriesOn es d)) := by
  rw [((dateKeys_perm_dedup es).map
      (fun d => f (calculateTotals (entriesOn es d)))).sum_eq]
  rw [← List.sum_toFinset _ (List.nodup_dedup _)]
  congr 1
  ext d
  simp [List.mem_toFinset, List.mem_dedup]

lemma dailyTotals_map_calories (es : List FoodLogEntry) :
    (dailyTotalsOf es).map (fun d => d.calories) =
      (dateKeys es).map (fun d => (calculateTotals (entriesOn es d)).calories) := by
  simp [dailyTotalsOf, List.map_map, Function.comp]

lemma dailyTotals_map_protein (es : List FoodLogEntry) :
    (dailyTotalsOf es).map (fun d => d.protein_g) =
      (dateKeys es).map (fun d => (calculateTotals (entriesOn es d)).protein_g) := by
  simp [dailyTotalsOf, List.map_map, Function.comp]

lemma dailyTotals_map_carbs (es : List FoodLogEntry) :
    (dailyTotalsOf es).map (fun d => d.carbs_g) =
      (dateKeys es).map (fun d => (calculateTotals (entriesOn es d)).carbs_g) := by
  simp [dailyTotalsOf, List.map_map, Function.comp]

lemma dailyTotals_map_fat (es : List FoodLogEntry) :
    (dailyTotalsOf es).map (fun d => d.fat_g) =
      (dateKeys es).map (fun d => (calculateTotals (entriesOn es d)).fat_g) := by
  simp [dailyTotalsOf, List.map_map, Function.comp]

/-- **C2.** The number of averaged days is the number of *non-empty* date
buckets (the distinct dates occurring among the entries, regardless of the
calendar span), every bucket is the `calculateTotals` of the entries of one
occurring date, and each average is the final rounding of the bucket sum
divided by that bucket count; dates with no entries never materialize a
bucket and contribute nothing. -/
theorem summary_average_by_nonempty_buckets (es : List FoodLogEntry) :
    summaryNumDays es = (es.map (fun e => e.date)).toFinset.card ∧
    summaryAvgCalories es =
      jsRound ((∑ d in (es.map (fun e => e.date)).toFinset,
          (calculateTotals (entriesOn es d)).calories) /
        ((es.map (fun e => e.date)).toFinset.card : ℚ)) ∧
    summaryAvgProtein es =
      ((jsRound (((∑ d in (es.map (fun e => e.date)).toFinset,
          (calculateTotals (entriesOn es d)).protein_g) /
        ((es.map (fun e => e.date)).toFinset.card : ℚ)) * 10) : ℤ) : ℚ) / 10 ∧
    summaryAvgCarbs es =
      ((jsRound (((∑ d in (es.map (fun e => e.date)).toFinset,
          (calculateTotals (entriesOn es d)).carbs_g) /
        ((es.map (fun e => e.date)).toFinset.card : ℚ)) * 10) : ℤ) : ℚ) / 10 ∧
    summaryAvgFat es =
      ((jsRound (((∑ d in (es.map (fun e => e.date)).toFinset,
          (calculateTotals (entriesOn es d)).fat_g) /
        ((es.map (fun e => e.date)).toFinset.card : ℚ)) * 10) : ℤ) : ℚ) / 10 := by
  refine ⟨summaryNumDays_eq es, ?_, ?_, ?_, ?_⟩
  · rw [summaryAvgCalories, dailyTotals_map_calories, summarySum_eq,
      summaryNumDays_eq]
  · rw [summaryAvgProtein, dailyTotals_map_protein, summarySum_eq,
      summaryNumDays_eq]
  · rw [summaryAvgCarbs, dailyTotals_map_carbs, summarySum_eq,
      summaryNumDays_eq]
  · rw [summaryAvgFat, dailyTotals_map_fat, summarySum_eq,
      summaryNumDays_eq]

/-- **C6 counterexample.** Entries arriving in descending date order: the
grouping keeps keys in first-occurrence order and `get_summary` performs no
sort, so the daily-totals dates come out `["2025-01-16", "2025-01-15"]`,
which is not ascending. -/
theorem dailyTotals_sorted_counterexample :
    ¬ ((dailyTotalsOf [sampleEntry 1 "2025-01-16" 100 none,
        sampleEntry 2 "2025-01-15" 200 none]).map
          (fun d => d.date)).Pairwise (· ≤ ·) := by
  intro h
  have hdates : ((dailyTotalsOf [sampleEntry 1 "2025-01-16" 100 none,
      sampleEntry 2 "2025-01-15" 200 none]).map (fun d => d.date)) =
      ["2025-01-16", "2025-01-15"] := by
    simp [dailyTotalsOf, dateKeys, insertDateKey, sampleEntry]
  rw [hdates] at h
  have hle : ("2025-01-16" : String) ≤ "2025-01-15" :=
    (List.pairwise_cons.1 h).1 _ (by simp)
  have hlt : ("2025-01-15" : String) < "2025-01-16" := by
    rw [String.lt_iff_toList_lt]
    decide
  exact absurd hle (not_le.2 hlt)

lemma foldl_insertDateKey_pairwise (es : List FoodLogEntry) :
    ∀ acc : List String, acc.Pairwise (· ≤ ·) →
      (∀ a ∈ acc, ∀ e ∈ es, a ≤ e.date) →
      es.Pairwise (fun a b => a.date ≤ b.date) →
      (es.foldl (fun ks e => insertDateKey ks e.date) acc).Pairwise (· ≤ ·) := by
  induction es with
  | nil =>
      intro acc hacc _ _
      simp only [List.foldl_nil]
      exact hacc
  | cons e es ih =>
      intro acc hacc hrel hsorted
      rw [List.foldl_cons]
      unfold insertDateKey
      by_cases hd : e.date ∈ acc
      · rw [if_pos hd]
        apply ih acc hacc
        · intro a ha e' he'
          exact hrel a ha e' (List.mem_cons_of_mem _ he')
        · exact (List.pairwise_cons.1 hsorted).2
      · rw [if_neg hd]
        apply ih
        · rw [List.pairwise_append]
          refine ⟨hacc, List.pairwise_singleton _ _, ?_⟩
          intro a ha b hb
          rw [List.mem_singleton] at hb
          subst hb
          exact hrel a ha e (List.mem_cons_self _ _)
        · intro a ha e' he'
          rcases List.mem_append.1 ha with h1 | h2
          · exact hrel a h1 e' (List.mem_cons_of_mem _ he')
          · rw [List.mem_singleton] at h2
            subst h2
            exact (List.pairwise_cons.1 hsorted).1 e' he'
        · exact (List.pairwise_cons.1 hsorted).2

lemma dailyTotals_map_date (es : List FoodLogEntry) :
    (dailyTotalsOf es).map (fun d => d.date) = dateKeys es := by
  rw [dailyTotalsOf, List.map_map]
  exact List.map_id _

/-- **C6 amended.** When the input entries arrive sorted by date ascending —
as `getLogsByDateRange` guarantees via `ORDER BY date` — the daily-totals
list is sorted by date ascending (lexicographically on the `YYYY-MM-DD`
strings); for an arbitrary input order the list is merely in
first-occurrence order. -/
theorem dailyTotals_sorted_of_sorted_input (es : List FoodLogEntry)
    (h : es.Pairwise (fun a b => a.date ≤ b.date)) :
    ((dailyTotalsOf es).map (fun d => d.date)).Pairwise (· ≤ ·) := by
  rw [dailyTotals_map_date]
  exact foldl_insertDateKey_pairwise es [] (by simp) (by simp) h

/-- Witness for C6 (amended) at a concrete date-sorted two-entry input. -/
theorem dailyTotals_sorted_of_sorted_input_witness :
    ((dailyTotalsOf [sampleEntry 1 "2025-01-14" 100 none,
        sampleEntry 2 "2025-01-15" 200 none]).map
          (fun d => d.date)).Pairwise (· ≤ ·) :=
  dailyTotals_sorted_of_sorted_input _ (by
    refine List.Pairwise.cons ?_ (List.Pairwise.cons (by simp) List.Pairwise.nil)
    intro a' ha'
    rw [List.mem_singleton] at ha'
    subst ha'
    show ("2025-01-14" : String) ≤ "2025-01-15"
    rw [String.le_iff_toList_le]
    decide)

/-- **C7 counterexample.** An entry of 100.5 calories: `get_daily_log`
displays the daily calorie total as `100.5`, which is not an integer — so
the displayed daily totals are *not* rounded (calories to the nearest whole
number) at the presentation step. -/
theorem display_rounding_counterexample :
    (dailyLogDisplayedTotals [sampleEntry 1 "2025-01-15" (201/2) none]).calories
      = 201/2 ∧
    ¬ ∃ n : ℤ,
      (dailyLogDisplayedTotals [sampleEntry 1 "2025-01-15" (201/2) none]).calories
        = (n : ℚ) := by
  have hval : (dailyLogDisplayedTotals
      [sampleEntry 1 "2025-01-15" (201/2) none]).calories = 201/2 := by
    rw [dailyLogDisplayedTotals, calculateTotals_eq_sum]
    simp [sumNutrition, sampleEntry]
  refine ⟨hval, ?_⟩
  rintro ⟨n, hn⟩
  rw [hval] at hn
  have h2 : (201 : ℚ) = (n : ℚ) * 2 := by
    field_simp at hn
    linarith
  have h3 : (201 : ℤ) = n * 2 := by exact_mod_cast h2
  omega

/-- **C7 amended.** No rounding happens during accumulation: the daily
totals displayed by `get_daily_log` are the exact field-wise sums, and each
multi-day average is a *single* final rounding (`Math.round` for calories;
`Math.round(x*10)/10` for the gram fields, fiber excepted — no fiber average
is produced) applied to a quotient built from exact per-entry sums.  Daily
totals themselves are displayed unrounded. -/
theorem nutrition_rounding_policy (es : List FoodLogEntry) :
    dailyLogDisplayedTotals es = sumNutrition es ∧
    summaryAvgCalories es =
      jsRound ((∑ d in (es.map (fun e => e.date)).toFinset,
          ((entriesOn es d).map (fun e => e.calories)).sum) /
        ((es.map (fun e => e.date)).toFinset.card : ℚ)) ∧
    summaryAvgProtein es =
      ((jsRound (((∑ d in (es.map (fun e => e.date)).toFinset,
          ((entriesOn es d).map (fun e => e.protein_g.getD 0)).sum) /
        ((es.map (fun e => e.date)).toFinset.card : ℚ)) * 10) : ℤ) : ℚ) / 10 ∧
    summaryAvgCarbs es =
      ((jsRound (((∑ d in (es.map (fun e => e.date)).toFinset,
          ((entriesOn es d).map (fun e => e.carbs_g.getD 0)).sum) /
        ((es.map (fun e => e.date)).toFinset.card : ℚ)) * 10) : ℤ) : ℚ) / 10 ∧
    summaryAvgFat es =
      ((jsRound (((∑ d in (es.map (fun e => e.date)).toFinset,
          ((entriesOn es d).map (fun e => e.fat_g.getD 0)).sum) /
        ((es.map (fun e => e.date)).toFinset.card : ℚ)) * 10) : ℤ) : ℚ) / 10 := by
  have hcal : ∀ d, (calculateTotals (entriesOn es d)).calories =
      ((entriesOn es d).map (fun e => e.calories)).sum := fun d => by
    rw [calculateTotals_eq_sum]; rfl
  have hprot : ∀ d, (calculateTotals (entriesOn es d)).protein_g =
      ((entriesOn es d).map (fun e => e.protein_g.getD 0)).sum := fun d => by
    rw [calculateTotals_eq_sum]; rfl
  have hcarb : ∀ d, (calculateTotals (entriesOn es d)).carbs_g =
      ((entriesOn es d).map (fun e => e.carbs_g.getD 0)).sum := fun d => by
    rw [calculateTotals_eq_sum]; rfl
  have hfat : ∀ d, (calculateTotals (entriesOn es d)).fat_g =
      ((entriesOn es d).map (fun e => e.fat_g.getD 0)).sum := fun d => by
    rw [calculateTotals_eq_sum]; rfl
  refine ⟨calculateTotals_eq_sum es, ?_, ?_, ?_, ?_⟩
  · rw [summaryAvgCalories, dailyTotals_map_calories, summarySum_eq,
      summaryNumDays_eq, Finset.sum_congr rfl (fun d _ => hcal d)]
  · rw [summaryAvgProtein, dailyTotals_map_protein, summarySum_eq,
      summaryNumDays_eq, Finset.sum_congr rfl (fun d _ => hprot d)]
  · rw [summaryAvgCarbs, dailyTotals_map_carbs, summarySum_eq,
      summaryNumDays_eq, Finset.sum_congr rfl (fun d _ => hcarb d)]
  · rw [summaryAvgFat, dailyTotals_map_fat, summarySum_eq,
      summaryNumDays_eq, Finset.sum_congr rfl (fun d _ => hfat d)]

end FoodTracker
